import Mathlib

/-!
Shallow embedding of the session, route-guard, HTTP-interceptor and
dashboard logic of the hfrat_frontend repository
(src/auth/AuthContext.jsx, src/api/axios.js, the ProtectedRoute
component, the Login page and the Dashboard page), with theorems
settling the spec claims about them.

JavaScript conventions used throughout the embedding:
- a nullable value is an `Option`;
- JS truthiness of a string is `s ≠ ""`; of an object, always true;
  of a number, `n ≠ 0`;
- `localStorage` is a record of three optional string slots; the slot
  holding the JSON-serialized user record is modelled at the level of
  the deserialized value (JSON.stringify of an object is a non-empty
  string that JSON.parse inverts, so presence and truthiness carry over);
- times are integer milliseconds since the epoch (`Date.now()`), and a
  JWT exp claim is integer seconds.
-/

namespace HFRAT

/-- Payload of a decoded JWT as far as the client consults it: only the
optional numeric `exp` claim (seconds since epoch) is ever read.
A payload whose JSON decodes to a falsy value (null, 0, false) behaves
identically to a decoding failure in the source and is folded into
`none` of the platform decoder. -/
structure JwtPayload where
  exp : Option Int
deriving Repr, DecidableEq

/-- Splitting of a character list at every occurrence of the separator,
matching the semantics of the JS String.prototype.split with a
one-character separator (so the empty input gives one empty field, and
adjacent separators give empty fields). Written by structural recursion
so that it evaluates inside the kernel. -/
def splitOnChar (c : Char) : List Char → List (List Char)
  | [] => [[]]
  | x :: xs =>
    match splitOnChar c xs with
    | [] => if x = c then [[], []] else [[x]]
    | y :: ys => if x = c then [] :: y :: ys else (x :: y) :: ys

/-- JS token.split with the dot separator, lifted back to strings. -/
def jsSplitDot (token : String) : List String :=
  (splitOnChar (Char.ofNat 46) token.toList).map String.mk

/-- AuthContext.jsx decodeToken: takes the middle dot-separated segment
of the token and base64+JSON decodes it, returning null on any failure.
The platform primitives atob and JSON.parse are browser builtins, not
repository code, so they are abstracted as the parameter `pd`
(`none` = exception thrown, caught by the try/catch). Indexing `[1]`
past the end of the split yields undefined, which atob always rejects,
hence `none`. -/
def decodeToken (pd : String → Option JwtPayload) (token : String) :
    Option JwtPayload :=
  match (jsSplitDot token).get? 1 with
  | some payload => pd payload
  | none => none

/-- User record stored by the login page: `login(access_token, { email,
facility_id }, role)`. -/
structure UserData where
  email : String
  facility_id : Option Int
deriving Repr, DecidableEq

/-- In-memory React state of AuthProvider: token, user and role all
start as null. -/
structure AuthState where
  token : Option String
  user : Option UserData
  role : Option String
deriving Repr, DecidableEq

/-- JS truthiness of a nullable string: null and the empty string are
falsy. -/
def truthyStr : Option String → Bool
  | none => false
  | some s => s ≠ ""

/-- AuthContext.jsx isTokenExpired, as a function of the platform
decoder, the current time `now = Date.now()` in milliseconds and the
in-memory state. Source:
if (!token) return true;
const decoded = decodeToken(token);
if (!decoded || !decoded.exp) return true;
return decoded.exp * 1000 < Date.now();
A present-but-zero exp claim is falsy in JS, hence the `e = 0` branch. -/
def isTokenExpired (pd : String → Option JwtPayload) (now : Int)
    (s : AuthState) : Bool :=
  match s.token with
  | none => true
  | some t =>
    if t = "" then true
    else
      match decodeToken pd t with
      | none => true
      | some d =>
        match d.exp with
        | none => true
        | some e => if e = 0 then true else decide (e * 1000 < now)

/-- C1. For every token: a decoded payload with an expiry claim in the
past gives true; a future expiry claim gives false; an absent token, a
token whose payload fails to decode, and a payload lacking an exp claim
all give true. The future case assumes the clock reads a nonnegative
epoch time, as Date.now() does. -/
theorem C1_isTokenExpired_cases (pd : String → Option JwtPayload)
    (s : AuthState) (now : Int) :
    (s.token = none → isTokenExpired pd now s = true) ∧
    (∀ t, s.token = some t → decodeToken pd t = none →
      isTokenExpired pd now s = true) ∧
    (∀ t d, s.token = some t → decodeToken pd t = some d → d.exp = none →
      isTokenExpired pd now s = true) ∧
    (∀ t d e, s.token = some t → decodeToken pd t = some d →
      d.exp = some e → e * 1000 < now →
      isTokenExpired pd now s = true) ∧
    (∀ t d e, s.token = some t → decodeToken pd t = some d →
      d.exp = some e → 0 ≤ now → now < e * 1000 →
      isTokenExpired pd now s = false) := by
  have hdecEmpty : decodeToken pd "" = none := rfl
  refine ⟨?_, ?_, ?_, ?_, ?_⟩
  · intro h
    simp [isTokenExpired, h]
  · intro t ht hdec
    by_cases hte : t = ""
    · simp [isTokenExpired, ht, hte]
    · simp [isTokenExpired, ht, hte, hdec]
  · intro t d ht hdec hexp
    by_cases hte : t = ""
    · simp [isTokenExpired, ht, hte]
    · simp [isTokenExpired, ht, hte, hdec, hexp]
  · intro t d e ht hdec hexp hlt
    by_cases hte : t = ""
    · simp [isTokenExpired, ht, hte]
    · by_cases hz : e = 0
      · simp [isTokenExpired, ht, hte, hdec, hexp, hz]
      · simp [isTokenExpired, ht, hte, hdec, hexp, hz, hlt]
  · intro t d e ht hdec hexp hnow hfut
    have hte : t ≠ "" := by
      intro he
      rw [he, hdecEmpty] at hdec
      exact Option.noConfusion hdec
    have hz : e ≠ 0 := by
      intro he
      rw [he] at hfut
      simp only [zero_mul] at hfut
      omega
    have hnlt : ¬ (e * 1000 < now) := by omega
    simp [isTokenExpired, ht, hte, hdec, hexp, hz, hnlt]

/-- Concrete platform decoder used by witnesses: decodes the literal
payload segment "payload" to an exp claim of 2 seconds, rejects
everything else. -/
def pdW : String → Option JwtPayload :=
  fun s => if s = "payload" then some ⟨some 2⟩ else none

/-- Witness for C1: a token expiring at epoch second 2, checked at
1000 ms, is not yet expired; the same state with a malformed token is
expired. -/
theorem C1_isTokenExpired_cases_witness :
    isTokenExpired pdW 1000 ⟨some "head.payload", none, none⟩ = false ∧
    isTokenExpired pdW 1000 ⟨some "garbage", none, none⟩ = true := by
  constructor
  · exact (C1_isTokenExpired_cases pdW ⟨some "head.payload", none, none⟩
      1000).2.2.2.2 "head.payload" ⟨some 2⟩ 2 rfl (by decide) rfl (by decide)
      (by decide)
  · exact (C1_isTokenExpired_cases pdW ⟨some "garbage", none, none⟩
      1000).2.1 "garbage" rfl (by decide)

/-- Persisted localStorage slots used by the app: access_token, user
(JSON-serialized UserData, modelled at the level of the deserialized
value) and role. `none` means the key is absent. -/
structure Storage where
  access_token : Option String
  user : Option UserData
  role : Option String
deriving Repr, DecidableEq

/-- Combined session state: the in-memory React state of AuthProvider
and the persisted localStorage slots. -/
structure Session where
  auth : AuthState
  storage : Storage
deriving Repr, DecidableEq

/-- Initial in-memory state: token, user, role all null. -/
def emptyAuth : AuthState := ⟨none, none, none⟩

/-- Storage with all three auth keys absent. -/
def emptyStorage : Storage := ⟨none, none, none⟩

/-- AuthContext.jsx login: sets the three state fields and persists all
three localStorage keys, discarding whatever was there before. -/
def login (_s : Session) (accessToken : String) (userData : UserData)
    (userRole : String) : Session :=
  ⟨⟨some accessToken, some userData, some userRole⟩,
   ⟨some accessToken, some userData, some userRole⟩⟩

/-- AuthContext.jsx logout: nulls the three state fields and removes
all three localStorage keys. -/
def logout (_s : Session) : Session := ⟨emptyAuth, emptyStorage⟩

/-- AuthContext.jsx isAuthenticated: `!!token && !!user && !!role`; the
user value is an object, truthy whenever non-null. -/
def isAuthenticatedB (a : AuthState) : Bool :=
  truthyStr a.token && a.user.isSome && truthyStr a.role

/-- AuthContext.jsx mount effect: reads the three keys; if all are
present (and truthy — an empty token or role string is falsy, while the
stored user JSON string of an object is never empty), decodes the token
and keeps the session only when `decoded.exp * 1000 > Date.now()`
(a missing exp gives NaN > now = false); otherwise calls logout, which
clears storage. When any key is missing the storage is left untouched
and the in-memory state stays logged out. -/
def initEffect (pd : String → Option JwtPayload) (now : Int)
    (st : Storage) : Session :=
  match st.access_token, st.user, st.role with
  | some tok, some usr, some rol =>
    if tok ≠ "" ∧ rol ≠ "" then
      match decodeToken pd tok with
      | some d =>
        match d.exp with
        | some e =>
          if e * 1000 > now then ⟨⟨some tok, some usr, some rol⟩, st⟩
          else logout ⟨emptyAuth, st⟩
        | none => logout ⟨emptyAuth, st⟩
      | none => logout ⟨emptyAuth, st⟩
    else ⟨emptyAuth, st⟩
  | _, _, _ => ⟨emptyAuth, st⟩

/-- Observable result of the axios response interceptor error branch:
the updated storage, the value forced into window.location.href if any,
and whether the error is propagated onward (Promise.reject). -/
structure InterceptResult where
  storage : Storage
  navigation : Option String
  propagated : Bool
deriving Repr, DecidableEq

/-- axios.js response interceptor error handler. On status 401 it
removes the access_token and user keys (the source never touches the
role key here), assigns window.location.href to the login path, and
rejects the error; on any other status (or no response at all, modelled
by `none`) it only rejects. -/
def respInterceptorOnError (st : Storage) (status : Option Nat) :
    InterceptResult :=
  if status = some 401 then
    ⟨⟨none, none, st.role⟩, some "/login", true⟩
  else
    ⟨st, none, true⟩

/-- Invariant claimed by the spec for the persisted session: the three
keys are all present or all absent. -/
def storageInvariant (st : Storage) : Prop :=
  (st.access_token.isSome ∧ st.user.isSome ∧ st.role.isSome) ∨
  (st.access_token = none ∧ st.user = none ∧ st.role = none)

/-- Helper: the mount effect either leaves storage unchanged or clears
it completely. -/
theorem initEffect_storage_cases (pd : String → Option JwtPayload)
    (now : Int) (st : Storage) :
    (initEffect pd now st).storage = st ∨
    (initEffect pd now st).storage = emptyStorage := by
  obtain ⟨a, b, c⟩ := st
  simp only [initEffect]
  repeat' split
  all_goals simp [logout, emptyAuth, emptyStorage]

/-- C9. From any prior session state, login with a (non-empty) token
and role followed by isAuthenticated yields true, and logout followed
by isAuthenticated yields false. The non-emptiness hypotheses reflect
JS truthiness: login with an empty token string would store a falsy
token. -/
theorem C9_login_logout_isAuthenticated (s s' : Session) (tok : String)
    (usr : UserData) (rol : String) (htok : tok ≠ "") (hrol : rol ≠ "") :
    isAuthenticatedB (login s tok usr rol).auth = true ∧
    isAuthenticatedB (logout s').auth = false := by
  constructor
  · simp [login, isAuthenticatedB, truthyStr, htok, hrol]
  · simp [logout, emptyAuth, isAuthenticatedB, truthyStr]

/-- Witness for C9 at a concrete prior state and concrete credentials. -/
theorem C9_login_logout_isAuthenticated_witness :
    isAuthenticatedB
      ((login ⟨emptyAuth, emptyStorage⟩ "tok" ⟨"a@b.c", none⟩
        "ADMIN").auth) = true ∧
    isAuthenticatedB ((logout ⟨emptyAuth, emptyStorage⟩).auth) = false :=
  C9_login_logout_isAuthenticated ⟨emptyAuth, emptyStorage⟩
    ⟨emptyAuth, emptyStorage⟩ "tok" ⟨"a@b.c", none⟩ "ADMIN"
    (by decide) (by decide)

/-- Counterexample to C2 as stated: from a fully-populated storage
satisfying the all-or-absent invariant, the global 401 handler leaves
the role key behind, producing a partial session in storage. -/
theorem C2_counterexample :
    storageInvariant ⟨some "t", some ⟨"a@b.c", none⟩, some "ADMIN"⟩ ∧
    ¬ storageInvariant
      ((respInterceptorOnError
        ⟨some "t", some ⟨"a@b.c", none⟩, some "ADMIN"⟩
        (some 401)).storage) := by
  constructor
  · left; simp [storageInvariant]
  · intro h
    rcases h with ⟨h1, _, _⟩ | ⟨_, _, h3⟩
    · simp [respInterceptorOnError] at h1
    · simp [respInterceptorOnError] at h3

/-- C2 amended: login stores all three keys, logout removes all three,
and the mount-time expiry invalidation either keeps storage unchanged
or clears it, so all three preserve the all-or-absent invariant; the
global 401 handler, however, removes only access_token and user and
leaves the role key exactly as it was, so it does not preserve the
invariant when a session is present. -/
theorem C2_amended_invariant (pd : String → Option JwtPayload)
    (now : Int) (s s' : Session) (tok : String) (usr : UserData)
    (rol : String) (st st' : Storage) (hst : storageInvariant st) :
    storageInvariant (login s tok usr rol).storage ∧
    storageInvariant (logout s').storage ∧
    storageInvariant (initEffect pd now st).storage ∧
    (respInterceptorOnError st' (some 401)).storage.access_token
      = none ∧
    (respInterceptorOnError st' (some 401)).storage.user = none ∧
    (respInterceptorOnError st' (some 401)).storage.role = st'.role := by
  refine ⟨?_, ?_, ?_, rfl, rfl, rfl⟩
  · left; simp [login]
  · right; simp [logout, emptyStorage]
  · rcases initEffect_storage_cases pd now st with h | h
    · rw [h]; exact hst
    · rw [h]; right; simp [emptyStorage]

/-- Witness for C2 amended at a concrete populated storage. -/
theorem C2_amended_invariant_witness :
    storageInvariant
      ((login ⟨emptyAuth, emptyStorage⟩ "t" ⟨"a@b.c", none⟩
        "ADMIN").storage) ∧
    storageInvariant ((logout ⟨emptyAuth, emptyStorage⟩).storage) ∧
    storageInvariant
      ((initEffect pdW 1000
        ⟨some "head.payload", some ⟨"a@b.c", none⟩,
          some "ADMIN"⟩).storage) ∧
    (respInterceptorOnError
      ⟨some "t", some ⟨"a@b.c", none⟩, some "ADMIN"⟩
      (some 401)).storage.access_token = none ∧
    (respInterceptorOnError
      ⟨some "t", some ⟨"a@b.c", none⟩, some "ADMIN"⟩
      (some 401)).storage.user = none ∧
    (respInterceptorOnError
      ⟨some "t", some ⟨"a@b.c", none⟩, some "ADMIN"⟩
      (some 401)).storage.role = some "ADMIN" :=
  C2_amended_invariant pdW 1000 ⟨emptyAuth, emptyStorage⟩
    ⟨emptyAuth, emptyStorage⟩ "t" ⟨"a@b.c", none⟩ "ADMIN"
    ⟨some "head.payload", some ⟨"a@b.c", none⟩, some "ADMIN"⟩
    ⟨some "t", some ⟨"a@b.c", none⟩, some "ADMIN"⟩
    (Or.inl (by simp))

/-- Counterexample to C3 as stated: a 401 response against a storage
whose role key holds ADMIN leaves that role key present, so the client
does not clear all three session fields. -/
theorem C3_counterexample :
    (respInterceptorOnError
      ⟨some "t", some ⟨"a@b.c", none⟩, some "ADMIN"⟩
      (some 401)).storage.role = some "ADMIN" := rfl

/-- C3 amended: every response with status 401 removes the stored token
and user record (the stored role is left untouched) and forces a full
navigation to the login entry point; the error is still rejected to the
calling code. -/
theorem C3_amended_interceptor (st : Storage) (status : Option Nat)
    (h : status = some 401) :
    respInterceptorOnError st status =
      ⟨⟨none, none, st.role⟩, some "/login", true⟩ := by
  simp [respInterceptorOnError, h]

/-- Witness for C3 amended at a concrete storage and the 401 status. -/
theorem C3_amended_interceptor_witness :
    respInterceptorOnError
      ⟨some "t", some ⟨"a@b.c", none⟩, some "ADMIN"⟩ (some 401) =
      ⟨⟨none, none, some "ADMIN"⟩, some "/login", true⟩ :=
  C3_amended_interceptor
    ⟨some "t", some ⟨"a@b.c", none⟩, some "ADMIN"⟩ (some 401) rfl

/-- Possible render results of the ProtectedRoute component: the
loading placeholder markup, a Navigate element with its target path, or
the protected children. -/
inductive GuardOutcome
  | loadingPlaceholder
  | navigate (path : String)
  | renderChildren
deriving Repr, DecidableEq

/-- JS String.prototype.toUpperCase, character by character; the role
labels involved are ASCII, where Char.toUpper agrees with JS. -/
def jsToUpper (s : String) : String :=
  String.mk (s.toList.map Char.toUpper)

/-- The guard's role test, `allowedRoles.includes(role?.toUpperCase())`:
a null role gives undefined, which a list of strings never contains. -/
def roleAllowed (role : Option String) (allowedRoles : List String) :
    Bool :=
  match role with
  | some r => allowedRoles.contains (jsToUpper r)
  | none => false

/-- ProtectedRoute component as a pure function of (loading, in-memory
auth state, allowedRoles), following the source order: the loading
placeholder first, then the isAuthenticated check, then the role check,
which is taken only when allowedRoles is non-empty and the upper-cased
role is not contained in it; its switch picks the default landing page
of the upper-cased role, defaulting to login (also when role is null,
since `role?.toUpperCase()` is then undefined). -/
def protectedRoute (loading : Bool) (a : AuthState)
    (allowedRoles : List String) : GuardOutcome :=
  if loading then .loadingPlaceholder
  else if ¬ isAuthenticatedB a then .navigate "/login"
  else if allowedRoles.length > 0 ∧
      ¬ roleAllowed a.role allowedRoles then
    match a.role with
    | some r =>
      if jsToUpper r = "ADMIN" then .navigate "/admin/facilities"
      else if jsToUpper r = "REPORTER" then .navigate "/report"
      else if jsToUpper r = "MONITOR" then .navigate "/dashboard"
      else .navigate "/login"
    | none => .navigate "/login"
  else .renderChildren

/-- C5. The guard evaluates its outcomes in order: while loading it
renders the loading placeholder with no redirect, whatever the state
and allowed roles; once loading is finished, every unauthenticated
session is redirected to the login page regardless of allowedRoles, so
the role check can only apply after both earlier checks pass. -/
theorem C5_guard_order (a : AuthState) (allowedRoles : List String) :
    protectedRoute true a allowedRoles =
      GuardOutcome.loadingPlaceholder ∧
    (isAuthenticatedB a = false →
      protectedRoute false a allowedRoles =
        GuardOutcome.navigate "/login") := by
  constructor
  · rfl
  · intro h
    simp [protectedRoute, h]

/-- Witness for C5 at the empty auth state and a non-trivial role
list. -/
theorem C5_guard_order_witness :
    protectedRoute true emptyAuth ["ADMIN"] =
      GuardOutcome.loadingPlaceholder ∧
    protectedRoute false emptyAuth ["ADMIN"] =
      GuardOutcome.navigate "/login" :=
  ⟨(C5_guard_order emptyAuth ["ADMIN"]).1,
   (C5_guard_order emptyAuth ["ADMIN"]).2 (by decide)⟩

/-- C6. For every authenticated session whose upper-cased role is not
contained in the route's (non-empty) allowed list, the guard redirects
to that role's default landing page: ADMIN to the facilities list,
REPORTER to the report form, MONITOR to the dashboard, and any other
role to login. The empty allowed list never reaches this branch
(see the C10 theorem). -/
theorem C6_wrong_role_redirect (a : AuthState)
    (allowedRoles : List String) (r : String)
    (hroles : allowedRoles ≠ [])
    (hauth : isAuthenticatedB a = true) (hrole : a.role = some r)
    (hnotin : allowedRoles.contains (jsToUpper r) = false) :
    (jsToUpper r = "ADMIN" →
      protectedRoute false a allowedRoles =
        GuardOutcome.navigate "/admin/facilities") ∧
    (jsToUpper r = "REPORTER" →
      protectedRoute false a allowedRoles =
        GuardOutcome.navigate "/report") ∧
    (jsToUpper r = "MONITOR" →
      protectedRoute false a allowedRoles =
        GuardOutcome.navigate "/dashboard") ∧
    (jsToUpper r ≠ "ADMIN" → jsToUpper r ≠ "REPORTER" →
      jsToUpper r ≠ "MONITOR" →
      protectedRoute false a allowedRoles =
        GuardOutcome.navigate "/login") := by
  have hlen : allowedRoles.length > 0 := List.length_pos.mpr hroles
  have hmem : jsToUpper r ∉ allowedRoles := by simpa using hnotin
  refine ⟨?_, ?_, ?_, ?_⟩
  · intro h
    rw [h] at hmem
    simp [protectedRoute, roleAllowed, hauth, hrole, hlen, h, hmem]
  · intro h
    rw [h] at hmem
    simp [protectedRoute, roleAllowed, hauth, hrole, hlen, h, hmem]
  · intro h
    rw [h] at hmem
    simp [protectedRoute, roleAllowed, hauth, hrole, hlen, h, hmem]
  · intro h1 h2 h3
    simp [protectedRoute, roleAllowed, hauth, hrole, hlen,
      h1, h2, h3, hmem]

/-- Witness for C6 at the instance named by the claim: an authenticated
REPORTER visiting a route that allows only ADMIN is sent to the report
page. -/
theorem C6_wrong_role_redirect_witness :
    protectedRoute false
      ⟨some "t", some ⟨"r@x.y", some 1⟩, some "REPORTER"⟩
      ["ADMIN"] = GuardOutcome.navigate "/report" :=
  (C6_wrong_role_redirect
    ⟨some "t", some ⟨"r@x.y", some 1⟩, some "REPORTER"⟩
    ["ADMIN"] "REPORTER" (by decide) (by decide) rfl
    (by decide)).2.1 (by decide)

/-- C10. With an empty allowedRoles list the wrong-role branch is never
taken: every authenticated session, whatever its role (recognized or
not), gets the protected content with no redirect. -/
theorem C10_empty_allowedRoles_renders (a : AuthState)
    (hauth : isAuthenticatedB a = true) :
    protectedRoute false a [] = GuardOutcome.renderChildren := by
  simp [protectedRoute, hauth]

/-- Witness for C10 at an authenticated session with an unrecognized
role. -/
theorem C10_empty_allowedRoles_renders_witness :
    protectedRoute false
      ⟨some "t", some ⟨"u@x.y", none⟩, some "WEIRD"⟩ [] =
      GuardOutcome.renderChildren :=
  C10_empty_allowedRoles_renders
    ⟨some "t", some ⟨"u@x.y", none⟩, some "WEIRD"⟩ (by decide)

/-- Facility-status record as consumed by the Dashboard page; every
field the backend may omit or null is optional, and `critical` is the
backend-provided flag the page tests with plain truthiness. -/
structure Facility where
  facility_name : Option String
  country : Option String
  city : Option String
  icu_beds_available : Option Int
  ventilators_available : Option Int
  staff_on_duty : Option Int
  critical : Bool
  last_update : Option String
deriving Repr, DecidableEq

/-- Dashboard filteredFacilities memo: filter by country when a country
is selected (non-empty string), then by city when a city is selected. -/
def filteredFacilities (facilities : List Facility)
    (selectedCountry selectedCity : String) : List Facility :=
  let r1 := if selectedCountry ≠ "" then
    facilities.filter (fun f => decide (f.country = some selectedCountry))
  else facilities
  if selectedCity ≠ "" then
    r1.filter (fun f => decide (f.city = some selectedCity))
  else r1

/-- The two geographic filter selections of the Dashboard; the empty
string is the All option. -/
structure FilterState where
  selectedCountry : String
  selectedCity : String
deriving Repr, DecidableEq

/-- onChange handler of the country select: stores the chosen value
(the empty string when cleared back to All Countries) and resets the
city selection to empty. -/
def countryOnChange (_st : FilterState) (v : String) : FilterState :=
  ⟨v, ""⟩

/-- C7. The filtered facility list contains exactly the facilities
satisfying both the country and the city predicate, each predicate
matching everything when its selection is empty; and the country select
handler, on any change or clearing, resets whatever city was selected
to empty. -/
theorem C7_filter_conjunctive_and_city_reset
    (facilities : List Facility) (c ci : String)
    (st : FilterState) (v : String) :
    (∀ f, f ∈ filteredFacilities facilities c ci ↔
      f ∈ facilities ∧ (c = "" ∨ f.country = some c) ∧
        (ci = "" ∨ f.city = some ci)) ∧
    (countryOnChange st v).selectedCity = "" ∧
    (countryOnChange st v).selectedCountry = v := by
  refine ⟨?_, rfl, rfl⟩
  intro f
  by_cases hc : c = "" <;> by_cases hci : ci = "" <;>
    simp [filteredFacilities, hc, hci, List.mem_filter, and_assoc]
  tauto

/-- The Critical Situations stat card of the Dashboard. -/
def criticalCount (l : List Facility) : Nat :=
  (l.filter (fun f => f.critical)).length

/-- The No Data Reported stat card: facilities with last_update null. -/
def noDataCount (l : List Facility) : Nat :=
  (l.filter (fun f => decide (f.last_update = none))).length

/-- The Active Reports stat card: facilities with a non-null
last_update, whether critical or not. -/
def activeReportsCount (l : List Facility) : Nat :=
  (l.filter (fun f => decide (f.last_update ≠ none))).length

/-- The pie-chart active count, which unlike the stat card excludes
critical facilities. -/
def chartActiveCount (l : List Facility) : Nat :=
  (l.filter (fun f => decide (f.last_update ≠ none) && !f.critical)).length

/-- A critical facility that has reported (non-null last_update). -/
def facCritUpd : Facility :=
  ⟨some "A", some "Kenya", some "Nairobi", some 0, some 1, some 2,
    true, some "2024-01-01"⟩

/-- Counterexample to C8 as stated: one critical facility with a
recorded update is counted by both the critical card and the active
card, so the three displayed counters read 1, 0, 1 and sum to 2, not to
the total facility count 1. -/
theorem C8_counterexample :
    criticalCount [facCritUpd] = 1 ∧ noDataCount [facCritUpd] = 0 ∧
    activeReportsCount [facCritUpd] = 1 ∧
    criticalCount [facCritUpd] + noDataCount [facCritUpd] +
      activeReportsCount [facCritUpd] ≠ [facCritUpd].length := by
  decide

/-- Six facilities: two critical with updates, one without any update,
three active non-critical. -/
def demoList : List Facility :=
  [⟨some "A", some "K", some "N", some 0, some 1, some 2, true,
      some "2024-01-01"⟩,
   ⟨some "B", some "K", some "N", some 0, some 1, some 2, true,
      some "2024-01-02"⟩,
   ⟨some "C", some "K", some "N", none, none, none, false, none⟩,
   ⟨some "D", some "K", some "N", some 3, some 1, some 2, false,
      some "2024-01-03"⟩,
   ⟨some "E", some "K", some "N", some 4, some 1, some 2, false,
      some "2024-01-04"⟩,
   ⟨some "F", some "K", some "N", some 5, some 1, some 2, false,
      some "2024-01-05"⟩]

/-- C8 amended: the first two displayed counters are the number of
critical facilities and the number with no recorded update, but the
third counts every facility with a recorded update, critical ones
included; hence the last two counters sum to the total facility count,
all three sum to the total plus the number of critical facilities, and
the active counter exceeds the pie-chart active count by the number of
critical facilities with updates; a list with 2 critical (reporting)
facilities, 1 with no data and 3 active displays 2, 1, 5. -/
theorem C8_amended_counters (l : List Facility) :
    noDataCount l + activeReportsCount l = l.length ∧
    criticalCount l + noDataCount l + activeReportsCount l =
      l.length + criticalCount l ∧
    activeReportsCount l = chartActiveCount l +
      (l.filter (fun f => f.critical && decide (f.last_update ≠ none))).length ∧
    criticalCount demoList = 2 ∧ noDataCount demoList = 1 ∧
    activeReportsCount demoList = 5 := by
  have hsum : noDataCount l + activeReportsCount l = l.length := by
    induction l with
    | nil => rfl
    | cons f t ih =>
      by_cases h : f.last_update = none <;>
        simp [noDataCount, activeReportsCount, List.filter_cons, h]
          at ih ⊢ <;> omega
  refine ⟨hsum, by omega, ?_, by decide, by decide, by decide⟩
  clear hsum
  induction l with
  | nil => rfl
  | cons f t ih =>
    by_cases h : f.last_update = none <;> cases hc : f.critical <;>
      simp [activeReportsCount, chartActiveCount, List.filter_cons,
        h, hc] at ih ⊢ <;> omega

/-- Body of an error response: an optional general `error` string and
an optional map of field errors. -/
structure ErrBody where
  error : Option String
  errors : Option (List (String × String))
deriving Repr, DecidableEq

/-- A rejected axios call as the catch block sees it: the response, if
any (status and data), and the error message. -/
structure AxiosErr where
  response : Option (Nat × ErrBody)
  message : String
deriving Repr, DecidableEq

/-- The error.response?.data?.error optional chain. -/
def respDataError (err : AxiosErr) : Option String :=
  match err.response with
  | some r => r.2.error
  | none => none

/-- The error.response?.data?.errors optional chain. -/
def respDataErrors (err : AxiosErr) : Option (List (String × String)) :=
  match err.response with
  | some r => r.2.errors
  | none => none

/-- The error.response?.status optional chain. -/
def respStatus (err : AxiosErr) : Option Nat :=
  match err.response with
  | some r => some r.1
  | none => none

/-- Error banner state the Login page can end up in: a single api
banner message, or server field errors mapped onto the form. -/
inductive LoginErrorsState
  | api (msg : String)
  | fields (m : List (String × String))
deriving Repr, DecidableEq

/-- The catch block of Login.handleSubmit, following its if/else chain:
a truthy body error string is shown verbatim; else a present body
errors object is mapped to the fields; else a bare 401 shows the fixed
invalid-credentials message; else a Network Error message shows the
connectivity banner; else the generic message. -/
def loginCatch (err : AxiosErr) : LoginErrorsState :=
  if truthyStr (respDataError err) then
    .api ((respDataError err).getD "")
  else if (respDataErrors err).isSome then
    .fields ((respDataErrors err).getD [])
  else if respStatus err = some 401 then
    .api "Invalid email or password"
  else if err.message = "Network Error" then
    .api "Cannot connect to server. Please check if the backend is running."
  else
    .api "An unexpected error occurred. Please try again."

/-- Observable outcome of a failed login submission: the storage and
forced navigation produced by the axios response interceptor (which
runs before the page code sees the rejection), and the error banner
state set by the catch block, which itself never calls navigate on the
error path. -/
structure LoginFailureOutcome where
  storage : Storage
  navigation : Option String
  errors : LoginErrorsState
deriving Repr, DecidableEq

/-- A login submission whose request is rejected: the interceptor error
handler runs on the response status first, then the catch block of
Login.handleSubmit computes the banner state. -/
def loginSubmitFailure (st : Storage) (err : AxiosErr) :
    LoginFailureOutcome :=
  ⟨(respInterceptorOnError st (respStatus err)).storage,
   (respInterceptorOnError st (respStatus err)).navigation,
   loginCatch err⟩

/-- C4 evaluated at the failing input: a login rejected with status 401
and body error string "Invalid email or password" does set exactly that
banner message, but the global interceptor simultaneously forces
window.location.href to the login path, so a full navigation is
performed — contradicting the claimed (and, per the dedicated 401
branches of Login.handleSubmit, intended) no-navigation behavior. -/
theorem C4_login_401_sets_message_but_navigates :
    (loginSubmitFailure ⟨none, none, none⟩
      ⟨some ⟨401, some "Invalid email or password", none⟩, ""⟩).errors =
      LoginErrorsState.api "Invalid email or password" ∧
    (loginSubmitFailure ⟨none, none, none⟩
      ⟨some ⟨401, some "Invalid email or password", none⟩, ""⟩).navigation
      = some "/login" := by
  decide

end HFRAT
